import Mathlib

/-!
Verification of the tunnel-bridge server of ying32/ReverseProxy
(src/librp/server.go) against its natural-language specification.

The Go source is shallowly embedded: each method of TRPServer becomes a
pure Lean function on an explicit `ServerState`, stream and codec effects
are supplied by an explicit environment (`BridgeEnv`) or by explicit
outcome parameters, and every side effect on the wire is recorded in a
trace of `Action`s.  The HTTP mutual-exclusion discipline of
`THTTPHandler.ServeHTTP` is additionally modelled as a small transition
system (`MuxState`/`MuxStep`) whose reachable traces are proved serialized.
-/

namespace RP

/-- Byte strings on the wire (Go `[]byte`), modelled as lists of byte values. -/
abbrev Bytes := List Nat

/-- Identity of an accepted TCP connection (Go `net.Conn` handle). -/
abbrev ConnId := Nat

/-- Modelled from the spec: the reserved command code `Verify` carried by the
handshake packet.  The codec file defining the numeric constants is not under
src/; only the distinctness of the three codes matters here. -/
def PacketVerify : Nat := 1

/-- Modelled from the spec: the reserved command code `Cmd1` carrying an HTTP
response back from the agent (codec file not under src/). -/
def PacketCmd1 : Nat := 2

/-- Modelled from the spec: the reserved command code for an agent-reported
error payload (codec file not under src/; named `PackageError` in the source). -/
def PackageError : Nat := 3

/-- Errors produced by server.go.  Constructors carry the message where the
source builds one with `errors.New` / propagates an I/O or codec error. -/
inductive RPError where
  /-- Go: errors.New("客户端未连接。") in TRPServer.write. -/
  | agentNotConnected
  /-- Go: errors.New("首次连接校验证失败。") in cliProcess. -/
  | verifyFailed
  /-- Go: errors.New("首次请求命令不正确。") in cliProcess. -/
  | wrongFirstCommand
  /-- Go: errors.New("TCP实例未创建！") in TRPServer.Close. -/
  | tcpNotCreated
  /-- An I/O error propagated from the network layer (read/write/deadline). -/
  | ioError (msg : String)
  /-- An error returned by EncodeRequest. -/
  | encodeError (msg : String)
  /-- An error returned by DecodeResponse or reading the decoded body. -/
  | decodeError (msg : String)
  /-- Go: errors.New(string(data)) for a PackageError packet. -/
  | agentError (data : Bytes)
  deriving DecidableEq, Repr

/-- Observable side effects of the server on connections and listeners,
recorded as an explicit trace by the embedded functions. -/
inductive Action where
  /-- conn.SetReadDeadline(time.Now().Add(5 * time.Second)). -/
  | setDeadline (c : ConnId)
  /-- conn.SetReadDeadline(time.Time{}) inside the handshake read handler. -/
  | clearDeadline (c : ConnId)
  /-- One framed packet written to connection c (wData / conn.Write). -/
  | wireWrite (c : ConnId) (b : Bytes)
  /-- One framed packet read from connection c (readPacket). -/
  | wireRead (c : ConnId)
  /-- conn.Write(EncodeVerifyFailed()). -/
  | writeVerifyFailed (c : ConnId)
  /-- conn.Write(EncodeVerifyOK()) — the attempt; it may fail. -/
  | writeVerifyOK (c : ConnId)
  /-- conn.Close(). -/
  | closeConn (c : ConnId)
  /-- keepALive(c): the blocking liveness watch ran and returned. -/
  | keepAlive (c : ConnId)
  /-- httpSvr.Shutdown(ctx) followed by httpSvr.Close(). -/
  | shutdownHTTP
  /-- listener.Close(). -/
  | closeListener
  deriving DecidableEq, Repr

/-- State of a TRPServer (the mutable fields of the Go struct).
The `conn` field is the single active tunnel connection reference; `listener`
and `httpSvr` record whether those objects are non-nil. -/
structure ServerState where
  conn : Option ConnId
  listener : Bool
  httpSvr : Bool
  running : Bool
  deriving DecidableEq, Repr

/-- HTTP header multimap (Go http.Header): association list from field name to
its list of values. -/
abbrev Header := List (String × List String)

/-- Go http.Header.Set: replaces all existing values of key k with the single
value v (textproto MIMEHeader.Set semantics). -/
def headerSet (h : Header) (k v : String) : Header :=
  if h.any (fun kv => kv.1 = k) then
    h.map (fun kv => if kv.1 = k then (kv.1, [v]) else kv)
  else
    h ++ [(k, [v])]

/-- State of an http.ResponseWriter: accumulated header map, the status code
once WriteHeader has been called, and the body bytes written so far. -/
structure ResponseWriter where
  header : Header
  status : Option Nat
  body : String
  deriving DecidableEq, Repr

/-- A fresh ResponseWriter before the handler touches it. -/
def emptyWriter : ResponseWriter := ⟨[], none, ""⟩

/-- Modelled from the spec: the fixed HTML error page `errorHTML` (defined in a
repository file outside src/); its exact content is irrelevant, only that it is
one fixed constant. -/
def errorHTML : String := "<html><head><title>错误</title></head><body>400 Bad Request</body></html>"

/-- badRequest(w) from server.go: set Content-Type and X-Content-Type-Options,
write status 400, write the fixed error page. -/
def badRequest (w : ResponseWriter) : ResponseWriter :=
  { header :=
      headerSet (headerSet w.header "Content-Type" "text/html; charset=utf-8")
        "X-Content-Type-Options" "nosniff"
    status := some 400
    body := w.body ++ errorHTML }

/-- The decoded HTTP response produced by DecodeResponse: status code, header
multimap, and the result of ioutil.ReadAll on its body (which can itself fail). -/
structure DecodedResp where
  statusCode : Nat
  header : Header
  bodyRead : Except String String
  deriving Repr

/-- Environment of one bridge exchange: the outcomes of the external
collaborators (request encoder, stream write, stream read, response decoder)
for this exchange.  server.go calls them; their bodies are outside src/. -/
structure BridgeEnv where
  /-- Result of EncodeRequest(r) for the inbound request. -/
  encodeReq : Except String Bytes
  /-- Result of wData(conn, bytes): ok or a stream write error. -/
  wData : Except String Unit
  /-- Result of the framed read in readPacket: a (command, payload) packet or
  a stream/codec error. -/
  readRes : Except String (Nat × Bytes)
  /-- Result of DecodeResponse on a Cmd1 payload. -/
  decodeResp : Bytes → Except String DecodedResp

/-- TRPServer.write from server.go: fail if no connection, else encode the
request and write it to the active stream.  Returns the result, the (unchanged)
server state, and the wire actions performed. -/
def TRPServer.write (s : ServerState) (env : BridgeEnv) :
    Except RPError Unit × ServerState × List Action :=
  match s.conn with
  | none => (.error .agentNotConnected, s, [])
  | some c =>
    match env.encodeReq with
    | .error e => (.error (.encodeError e), s, [])
    | .ok reqBytes =>
      match env.wData with
      | .error e => (.error (.ioError e), s, [.wireWrite c reqBytes])
      | .ok _ => (.ok (), s, [.wireWrite c reqBytes])

/-- The packet handler passed to readPacket by TRPServer.read: on Cmd1 decode
the response, copy headers (via Header().Set in a loop), write the status code
and the body; on PackageError fail with the payload as message; on any other
command do nothing. -/
def readHandler (env : BridgeEnv) (w : ResponseWriter) (cmd : Nat) (data : Bytes) :
    Except RPError Unit × ResponseWriter :=
  if cmd = PacketCmd1 then
    match env.decodeResp data with
    | .error e => (.error (.decodeError e), w)
    | .ok resp =>
      match resp.bodyRead with
      | .error e => (.error (.decodeError e), w)
      | .ok bodyBytes =>
        let h := resp.header.foldl
          (fun acc kv => kv.2.foldl (fun acc2 v2 => headerSet acc2 kv.1 v2) acc)
          w.header
        (.ok (), { header := h, status := some resp.statusCode, body := w.body ++ bodyBytes })
  else if cmd = PackageError then
    (.error (.agentError data), w)
  else
    (.ok (), w)

/-- TRPServer.read from server.go: read one framed packet from the active
stream and dispatch it to the handler.  Returns the result, the writer after
the handler ran, the (unchanged) server state, and the wire actions. -/
def TRPServer.read (s : ServerState) (env : BridgeEnv) (w : ResponseWriter) :
    Except RPError Unit × ResponseWriter × ServerState × List Action :=
  let c := s.conn.getD 0
  match env.readRes with
  | .error e => (.error (.ioError e), w, s, [.wireRead c])
  | .ok (cmd, data) =>
    let (res, w') := readHandler env w cmd data
    (res, w', s, [.wireRead c])

/-- THTTPHandler.ServeHTTP from server.go, body of the critical section:
write the request; on error answer badRequest; else read the response; on
error answer badRequest.  Returns the final writer, server state, and trace. -/
def ServeHTTP (s : ServerState) (env : BridgeEnv) (w : ResponseWriter) :
    ResponseWriter × ServerState × List Action :=
  match TRPServer.write s env with
  | (.error _, s1, tr) => (badRequest w, s1, tr)
  | (.ok _, s1, tr) =>
    match TRPServer.read s1 env w with
    | (.error _, w1, s2, tr2) => (badRequest w1, s2, tr ++ tr2)
    | (.ok _, w1, s2, tr2) => (w1, s2, tr ++ tr2)

/-- The fixed 400 response of the bridge: Content-Type text/html; charset=utf-8,
X-Content-Type-Options nosniff, status 400, body the fixed error page. -/
def fixedBadResponse : ResponseWriter :=
  { header := [("Content-Type", ["text/html; charset=utf-8"]),
               ("X-Content-Type-Options", ["nosniff"])]
    status := some 400
    body := errorHTML }

/-- The exchange fails: either the write step or the read step returns an error. -/
def exchangeFails (s : ServerState) (env : BridgeEnv) : Prop :=
  (∃ e, (TRPServer.write s env).1 = .error e) ∨
  (∃ e, (TRPServer.read s env emptyWriter).1 = .error e)

/-- The verification handler passed to readPacket by cliProcess (the part after
clearing the read deadline): the first packet must carry PacketVerify with a
payload byte-for-byte equal to the configured secret. -/
def verifyHandler (secret : Bytes) (cmd : Nat) (data : Bytes) : Except RPError Unit :=
  if cmd = PacketVerify then
    if data = secret then .ok () else .error .verifyFailed
  else
    .error .wrongFirstCommand

/-- The replacement step of cliProcess: if a previous client is connected,
close it and clear the reference. -/
def disconnectPrev (s : ServerState) : ServerState × List Action :=
  match s.conn with
  | some old => ({ s with conn := none }, [.closeConn old])
  | none => (s, [])

/-- TRPServer.cliProcess from server.go, for the accepted connection c.
Inputs: `firstRead` is the outcome of the framed read of the first packet
(a packet or a stream/timeout/codec error), `secret` is conf.verifyVal, and
`okWrite` tells whether conn.Write(EncodeVerifyOK()) succeeds.
Control flow of the source: arm the 5s read deadline; read the first packet
(the handler clears the deadline, then verifies command and secret); on any
verification error write the failure packet and close the connection; else
close and clear any previous client, write the success packet (abort on write
failure), install c as the active connection and run keepALive(c) to
completion. -/
def cliProcess (s : ServerState) (c : ConnId)
    (firstRead : Except String (Nat × Bytes)) (secret : Bytes) (okWrite : Bool) :
    ServerState × List Action × Except RPError Unit :=
  let evs0 : List Action := [.setDeadline c]
  match firstRead with
  | .error e =>
    (s, evs0 ++ [.writeVerifyFailed c, .closeConn c], .error (.ioError e))
  | .ok (cmd, data) =>
    let evs1 := evs0 ++ [.clearDeadline c]
    match verifyHandler secret cmd data with
    | .error e =>
      (s, evs1 ++ [.writeVerifyFailed c, .closeConn c], .error e)
    | .ok _ =>
      let (s1, evs2) := disconnectPrev s
      let evs3 := evs1 ++ evs2 ++ [.writeVerifyOK c]
      if okWrite then
        ({ s1 with conn := some c }, evs3 ++ [.keepAlive c], .ok ())
      else
        (s1, evs3, .error (.ioError "write EncodeVerifyOK failed"))

/-- TRPServer.Close from server.go: clear running, close and clear the active
connection if any, shut down and clear the HTTP server if any, then close and
clear the TCP listener returning its close error; if no listener exists,
return the "TCP instance not created" error.  `listenerCloseErr` is the
outcome of listener.Close(). -/
def TRPServer.Close (s : ServerState) (listenerCloseErr : Option String) :
    ServerState × List Action × Option RPError :=
  let s1 : ServerState := { s with running := false }
  let (s2, evs2) : ServerState × List Action :=
    match s1.conn with
    | some c => ({ s1 with conn := none }, [.closeConn c])
    | none => (s1, [])
  let (s3, evs3) : ServerState × List Action :=
    if s2.httpSvr then ({ s2 with httpSvr := false }, evs2 ++ [.shutdownHTTP])
    else (s2, evs2)
  if s3.listener then
    ({ s3 with listener := false }, evs3 ++ [.closeListener],
      listenerCloseErr.map .ioError)
  else
    (s3, evs3, some .tcpNotCreated)

/-! ### The HTTP mutual-exclusion discipline

THTTPHandler.ServeHTTP runs once per inbound HTTP request on its own
goroutine, but its whole body executes under h.l.Lock()/defer h.l.Unlock(),
one exclusive mutex stored in the single handler instance shared by all
requests.  The transition system below models an arbitrary number of
concurrent handler invocations: each thread acquires the lock, performs the
request write (which emits one framed packet on the tunnel, or aborts before
emitting when no agent is connected or encoding fails), then either aborts
(releasing the lock, on a write error) or performs the response read (one
framed packet consumed) and releases the lock.  The wire trace records, per
event, the owning thread and whether it is the request write (false) or the
response read (true). -/

/-- Phase of one HTTP-handler thread in ServeHTTP. -/
inductive Phase where
  | idle
  | writing
  | reading
  | done
  deriving DecidableEq, Repr

/-- Global state of n concurrent ServeHTTP invocations: the holder of the
handler mutex h.l, the phase of each thread, and the wire trace of the tunnel
stream (thread, isResponseRead). -/
structure MuxState (n : Nat) where
  lock : Option (Fin n)
  phase : Fin n → Phase
  trace : List (Fin n × Bool)

/-- Initial state: lock free, every thread about to enter ServeHTTP, empty wire. -/
def MuxInit (n : Nat) : MuxState n := ⟨none, fun _ => .idle, []⟩

/-- One step of the concurrent system of ServeHTTP invocations. -/
inductive MuxStep {n : Nat} : MuxState n → MuxState n → Prop where
  /-- h.l.Lock(): a thread enters the critical section. -/
  | acquire (s : MuxState n) (t : Fin n) :
      s.lock = none → s.phase t = .idle →
      MuxStep s ⟨some t, Function.update s.phase t .writing, s.trace⟩
  /-- h.write(r) succeeds: the request packet goes on the wire. -/
  | writeOk (s : MuxState n) (t : Fin n) :
      s.lock = some t → s.phase t = .writing →
      MuxStep s ⟨some t, Function.update s.phase t .reading, s.trace ++ [(t, false)]⟩
  /-- h.write(r) fails after emitting the packet (wData error): badRequest,
  unlock, return; no response read happens. -/
  | writeEmitFail (s : MuxState n) (t : Fin n) :
      s.lock = some t → s.phase t = .writing →
      MuxStep s ⟨none, Function.update s.phase t .done, s.trace ++ [(t, false)]⟩
  /-- h.write(r) fails before touching the wire (no agent / encode error):
  badRequest, unlock, return. -/
  | writeSilentFail (s : MuxState n) (t : Fin n) :
      s.lock = some t → s.phase t = .writing →
      MuxStep s ⟨none, Function.update s.phase t .done, s.trace⟩
  /-- h.read(w) consumes the response packet (successfully or not), then the
  deferred unlock runs. -/
  | readResp (s : MuxState n) (t : Fin n) :
      s.lock = some t → s.phase t = .reading →
      MuxStep s ⟨none, Function.update s.phase t .done, s.trace ++ [(t, true)]⟩

/-- Reachability of the concurrent ServeHTTP system from the initial state. -/
def MuxReachable (n : Nat) (s : MuxState n) : Prop :=
  Relation.ReflTransGen MuxStep (MuxInit n) s

/-- Thread t has an exchange in flight on the tunnel: it is past Lock() and
before Unlock(), between starting its request write and finishing its
response read. -/
def inFlight {n : Nat} (s : MuxState n) (t : Fin n) : Prop :=
  s.phase t = .writing ∨ s.phase t = .reading

/-- Serialized wire traces: every response read immediately follows its own
request write of the same thread, so the events of distinct exchanges are never
interleaved.  The index is the thread whose request write is currently
dangling (awaiting its response read), if any; `seal` records an exchange
abandoned after its write (write error path — its read never happens). -/
inductive SerTrace {n : Nat} : List (Fin n × Bool) → Option (Fin n) → Prop where
  | nil : SerTrace [] none
  | openW (t : Fin n) (l : List (Fin n × Bool)) :
      SerTrace l none → SerTrace (l ++ [(t, false)]) (some t)
  | closeR (t : Fin n) (l : List (Fin n × Bool)) :
      SerTrace l (some t) → SerTrace (l ++ [(t, true)]) none
  | seal (t : Fin n) (l : List (Fin n × Bool)) :
      SerTrace l (some t) → SerTrace l none

/-- Inductive invariant of the system: (a) every thread inside the critical
section holds the lock; (b) the wire trace is serialized, with the dangling
write (if any) belonging to the unique thread in the reading phase. -/
def MuxInv {n : Nat} (s : MuxState n) : Prop :=
  (∀ t, inFlight s t → s.lock = some t) ∧
  ∃ p, SerTrace s.trace p ∧ ∀ t, (s.phase t = .reading ↔ p = some t)

theorem muxInv_init (n : Nat) : MuxInv (MuxInit n) := by
  refine ⟨?_, none, SerTrace.nil, ?_⟩
  · intro t ht
    rcases ht with h | h <;> simp [MuxInit] at h
  · intro t
    simp [MuxInit]

theorem muxStep_preserves_inv {n : Nat} {s s' : MuxState n}
    (hstep : MuxStep s s') (hinv : MuxInv s) : MuxInv s' := by
  obtain ⟨hlock, p, hser, hread⟩ := hinv
  cases hstep with
  | acquire t hl hp =>
    have hpnone : p = none := by
      cases p with
      | none => rfl
      | some u =>
        have hu : s.phase u = Phase.reading := (hread u).mpr rfl
        have hc := hlock u (Or.inr hu)
        rw [hl] at hc
        cases hc
    subst hpnone
    refine ⟨?_, none, hser, ?_⟩
    · intro u hu
      dsimp [inFlight] at hu
      by_cases h : u = t
      · subst h; rfl
      · rw [Function.update_noteq h] at hu
        have hc := hlock u hu
        rw [hl] at hc
        cases hc
    · intro u
      dsimp
      by_cases h : u = t
      · subst h
        rw [Function.update_same]
        simp
      · rw [Function.update_noteq h]
        exact hread u
  | writeOk t hl hp =>
    have hpnone : p = none := by
      cases p with
      | none => rfl
      | some u =>
        have hu : s.phase u = Phase.reading := (hread u).mpr rfl
        have hc := hlock u (Or.inr hu)
        rw [hl] at hc
        injection hc with hc
        rw [hc] at hp
        rw [hp] at hu
        cases hu
    subst hpnone
    refine ⟨?_, some t, SerTrace.openW t s.trace hser, ?_⟩
    · intro u hu
      dsimp [inFlight] at hu
      by_cases h : u = t
      · subst h; rfl
      · rw [Function.update_noteq h] at hu
        have hc := hlock u hu
        rw [hl] at hc
        injection hc with hc
        exact absurd hc.symm h
    · intro u
      dsimp
      by_cases h : u = t
      · subst h
        rw [Function.update_same]
        simp
      · rw [Function.update_noteq h]
        constructor
        · intro hr
          have hc := (hread u).mp hr
          cases hc
        · intro hs
          injection hs with hs
          exact absurd hs.symm h
  | writeEmitFail t hl hp =>
    have hpnone : p = none := by
      cases p with
      | none => rfl
      | some u =>
        have hu : s.phase u = Phase.reading := (hread u).mpr rfl
        have hc := hlock u (Or.inr hu)
        rw [hl] at hc
        injection hc with hc
        rw [hc] at hp
        rw [hp] at hu
        cases hu
    subst hpnone
    refine ⟨?_, none, SerTrace.seal t _ (SerTrace.openW t s.trace hser), ?_⟩
    · intro u hu
      exfalso
      dsimp [inFlight] at hu
      by_cases h : u = t
      · subst h
        rw [Function.update_same] at hu
        rcases hu with h | h <;> cases h
      · rw [Function.update_noteq h] at hu
        have hc := hlock u hu
        rw [hl] at hc
        injection hc with hc
        exact absurd hc.symm h
    · intro u
      dsimp
      by_cases h : u = t
      · subst h
        rw [Function.update_same]
        simp
      · rw [Function.update_noteq h]
        exact hread u
  | writeSilentFail t hl hp =>
    have hpnone : p = none := by
      cases p with
      | none => rfl
      | some u =>
        have hu : s.phase u = Phase.reading := (hread u).mpr rfl
        have hc := hlock u (Or.inr hu)
        rw [hl] at hc
        injection hc with hc
        rw [hc] at hp
        rw [hp] at hu
        cases hu
    subst hpnone
    refine ⟨?_, none, hser, ?_⟩
    · intro u hu
      exfalso
      dsimp [inFlight] at hu
      by_cases h : u = t
      · subst h
        rw [Function.update_same] at hu
        rcases hu with h | h <;> cases h
      · rw [Function.update_noteq h] at hu
        have hc := hlock u hu
        rw [hl] at hc
        injection hc with hc
        exact absurd hc.symm h
    · intro u
      dsimp
      by_cases h : u = t
      · subst h
        rw [Function.update_same]
        simp
      · rw [Function.update_noteq h]
        exact hread u
  | readResp t hl hp =>
    have hpt : p = some t := (hread t).mp hp
    subst hpt
    refine ⟨?_, none, SerTrace.closeR t s.trace hser, ?_⟩
    · intro u hu
      exfalso
      dsimp [inFlight] at hu
      by_cases h : u = t
      · subst h
        rw [Function.update_same] at hu
        rcases hu with h | h <;> cases h
      · rw [Function.update_noteq h] at hu
        have hc := hlock u hu
        rw [hl] at hc
        injection hc with hc
        exact absurd hc.symm h
    · intro u
      dsimp
      by_cases h : u = t
      · subst h
        rw [Function.update_same]
        simp
      · rw [Function.update_noteq h]
        constructor
        · intro hr
          have hc := (hread u).mp hr
          injection hc with hc
          exact absurd hc.symm h
        · intro hs
          cases hs

theorem muxReachable_inv {n : Nat} {s : MuxState n} (h : MuxReachable n s) : MuxInv s := by
  induction h with
  | refl => exact muxInv_init n
  | tail _ hstep ih => exact muxStep_preserves_inv hstep ih

/-! ### Helper lemmas about the bridge -/

theorem badRequest_empty : badRequest emptyWriter = fixedBadResponse := by decide

theorem write_preserves_state (s : ServerState) (env : BridgeEnv) :
    (TRPServer.write s env).2.1 = s := by
  unfold TRPServer.write
  cases s.conn with
  | none => rfl
  | some c =>
    cases env.encodeReq with
    | error e => rfl
    | ok b =>
      cases env.wData with
      | error e => rfl
      | ok u => rfl

theorem read_preserves_state (s : ServerState) (env : BridgeEnv) (w : ResponseWriter) :
    (TRPServer.read s env w).2.2.1 = s := by
  unfold TRPServer.read
  cases env.readRes with
  | error e => rfl
  | ok pkt => rfl

theorem write_trace_no_close (s : ServerState) (env : BridgeEnv) (c : ConnId) :
    Action.closeConn c ∉ (TRPServer.write s env).2.2 := by
  unfold TRPServer.write
  cases s.conn with
  | none => simp
  | some c' =>
    cases env.encodeReq with
    | error e => simp
    | ok b =>
      cases env.wData with
      | error e => simp
      | ok u => simp

theorem read_trace_no_close (s : ServerState) (env : BridgeEnv) (w : ResponseWriter)
    (c : ConnId) : Action.closeConn c ∉ (TRPServer.read s env w).2.2.2 := by
  unfold TRPServer.read
  cases env.readRes with
  | error e => simp
  | ok pkt => simp

theorem readHandler_error_writer (env : BridgeEnv) (w : ResponseWriter) (cmd : Nat)
    (data : Bytes) (h : ∃ e, (readHandler env w cmd data).1 = .error e) :
    (readHandler env w cmd data).2 = w := by
  obtain ⟨e, h⟩ := h
  by_cases h1 : cmd = PacketCmd1
  · simp only [readHandler, if_pos h1] at h ⊢
    cases hd : env.decodeResp data with
    | error e2 => simp [hd]
    | ok resp =>
      simp only [hd] at h ⊢
      cases hb : resp.bodyRead with
      | error e3 => simp [hb]
      | ok bodyBytes =>
        simp only [hb] at h
        cases h
  · by_cases h2 : cmd = PackageError
    · simp [readHandler, h1, h2, PacketCmd1, PackageError]
    · simp only [readHandler, if_neg h1, if_neg h2] at h
      cases h

theorem read_error_writer (s : ServerState) (env : BridgeEnv) (w : ResponseWriter)
    (h : ∃ e, (TRPServer.read s env w).1 = .error e) :
    (TRPServer.read s env w).2.1 = w := by
  obtain ⟨e, h⟩ := h
  unfold TRPServer.read at h ⊢
  cases hr : env.readRes with
  | error e2 => rfl
  | ok pkt =>
    obtain ⟨cmd, data⟩ := pkt
    rw [hr] at h
    simp only at h ⊢
    exact readHandler_error_writer env w cmd data ⟨e, h⟩

/-- A concrete exchange environment used by witnesses. -/
def demoEnv : BridgeEnv :=
  { encodeReq := .ok [0]
    wData := .ok ()
    readRes := .ok (PacketCmd1, [1])
    decodeResp := fun _ => .ok ⟨200, [("X-Demo", ["v"])], .ok "body"⟩ }

/-! ### The claims about the bridge -/

/-- C2: if no tunnel connection is active, TRPServer.write fails immediately
with the agent-not-connected error, ServeHTTP answers the fixed 400 response,
and the whole exchange performs no wire action (no write and no read on any
agent-side stream). -/
theorem no_agent_immediate_400 (s : ServerState) (env : BridgeEnv)
    (h : s.conn = none) :
    TRPServer.write s env = (.error .agentNotConnected, s, []) ∧
    ServeHTTP s env emptyWriter = (fixedBadResponse, s, []) := by
  have hw : TRPServer.write s env = (.error .agentNotConnected, s, []) := by
    unfold TRPServer.write
    rw [h]
  refine ⟨hw, ?_⟩
  unfold ServeHTTP
  rw [hw, badRequest_empty]

/-- Witness for no_agent_immediate_400 at a concrete disconnected server. -/
theorem no_agent_immediate_400_witness :
    TRPServer.write ⟨none, true, true, true⟩ demoEnv =
      (.error .agentNotConnected, ⟨none, true, true, true⟩, []) ∧
    ServeHTTP ⟨none, true, true, true⟩ demoEnv emptyWriter =
      (fixedBadResponse, ⟨none, true, true, true⟩, []) :=
  no_agent_immediate_400 ⟨none, true, true, true⟩ demoEnv rfl

/-- C3: whenever the bridge exchange fails at any step, the HTTP caller
receives exactly the fixed response: status 400, Content-Type
text/html; charset=utf-8, X-Content-Type-Options nosniff, and the fixed HTML
error page as body.  The response is one constant, so the underlying error
message never appears in it. -/
theorem failed_exchange_uniform_response (s : ServerState) (env : BridgeEnv)
    (h : exchangeFails s env) :
    (ServeHTTP s env emptyWriter).1 = fixedBadResponse := by
  unfold ServeHTTP
  rcases hw : TRPServer.write s env with ⟨res, s1, tr⟩
  have hs1 : s1 = s := by
    have := write_preserves_state s env
    rw [hw] at this
    exact this
  cases res with
  | error e =>
    simp [badRequest_empty]
  | ok u =>
    rcases hr : TRPServer.read s1 env emptyWriter with ⟨res2, w1, s2, tr2⟩
    cases res2 with
    | error e =>
      have hwriter : w1 = emptyWriter := by
        have := read_error_writer s1 env emptyWriter ⟨e, by rw [hr]⟩
        rw [hr] at this
        exact this
      dsimp only
      rw [hr]
      simp [hwriter, badRequest_empty]
    | ok u2 =>
      exfalso
      rcases h with ⟨e, he⟩ | ⟨e, he⟩
      · rw [hw] at he
        cases he
      · rw [hs1] at hr
        rw [hr] at he
        cases he

/-- Witness for failed_exchange_uniform_response: concrete failing exchange
(agent not connected). -/
theorem failed_exchange_uniform_response_witness :
    (ServeHTTP ⟨none, true, true, true⟩ demoEnv emptyWriter).1 = fixedBadResponse :=
  failed_exchange_uniform_response ⟨none, true, true, true⟩ demoEnv
    (Or.inl ⟨.agentNotConnected, rfl⟩)

/-- C9: the bridge is frame-preserving on the tunnel connection: write and
read return the server state unchanged (in particular the active-connection
reference), and a whole ServeHTTP exchange, failing or not, never emits a
connection close. -/
theorem bridge_never_touches_connection (s : ServerState) (env : BridgeEnv)
    (w : ResponseWriter) :
    (TRPServer.write s env).2.1 = s ∧
    (TRPServer.read s env w).2.2.1 = s ∧
    (ServeHTTP s env w).2.1 = s ∧
    ∀ c, Action.closeConn c ∉ (ServeHTTP s env w).2.2 := by
  refine ⟨write_preserves_state s env, read_preserves_state s env w, ?_, ?_⟩
  · unfold ServeHTTP
    rcases hw : TRPServer.write s env with ⟨res, s1, tr⟩
    have hs1 : s1 = s := by
      have := write_preserves_state s env
      rw [hw] at this
      exact this
    cases res with
    | error e => simpa using hs1
    | ok u =>
      rcases hr : TRPServer.read s1 env w with ⟨res2, w1, s2, tr2⟩
      have hs2 : s2 = s1 := by
        have := read_preserves_state s1 env w
        rw [hr] at this
        exact this
      cases res2 with
      | error e =>
        dsimp only
        rw [hr]
        simpa using hs2.trans hs1
      | ok u2 =>
        dsimp only
        rw [hr]
        simpa using hs2.trans hs1
  · intro c
    unfold ServeHTTP
    rcases hw : TRPServer.write s env with ⟨res, s1, tr⟩
    have htr : Action.closeConn c ∉ tr := by
      have := write_trace_no_close s env c
      rw [hw] at this
      exact this
    cases res with
    | error e => simpa using htr
    | ok u =>
      rcases hr : TRPServer.read s1 env w with ⟨res2, w1, s2, tr2⟩
      have htr2 : Action.closeConn c ∉ tr2 := by
        have := read_trace_no_close s1 env w c
        rw [hr] at this
        exact this
      cases res2 with
      | error e =>
        dsimp only
        rw [hr]
        simp only [List.mem_append]
        rintro (hc | hc)
        · exact htr hc
        · exact htr2 hc
      | ok u2 =>
        dsimp only
        rw [hr]
        simp only [List.mem_append]
        rintro (hc | hc)
        · exact htr hc
        · exact htr2 hc

/-- An exchange environment whose Cmd1 response carries one header with two
values; used to exhibit the multi-value header loss of TRPServer.read. -/
def multiValEnv : BridgeEnv :=
  { encodeReq := .ok [0]
    wData := .ok ()
    readRes := .ok (PacketCmd1, [1])
    decodeResp := fun _ => .ok ⟨200, [("Set-Cookie", ["a", "b"])], .ok "payload"⟩ }

/-- C6 (code bug): TRPServer.read copies multi-valued headers with
Header().Set inside the value loop, so only the last value of each
multi-valued header survives: a decoded response with header
Set-Cookie: [a, b] reaches the HTTP caller with Set-Cookie: [b] only, while
status code and body are copied verbatim and the exchange succeeds. -/
theorem cmd1_drops_first_multivalue :
    (TRPServer.read ⟨some 7, true, true, true⟩ multiValEnv emptyWriter).1 = .ok () ∧
    (TRPServer.read ⟨some 7, true, true, true⟩ multiValEnv emptyWriter).2.1 =
      ⟨[("Set-Cookie", ["b"])], some 200, "payload"⟩ ∧
    ([("Set-Cookie", ["b"])] : Header) ≠ [("Set-Cookie", ["a", "b"])] := by
  refine ⟨rfl, by decide, by decide⟩

/-! ### The claims about the connection lifecycle -/

/-- The handshake accepts the first read: it yields a packet whose command is
PacketVerify and whose payload equals the configured secret. -/
def handshakeAccepts (firstRead : Except String (Nat × Bytes)) (secret : Bytes) : Prop :=
  ∃ cmd data, firstRead = .ok (cmd, data) ∧ verifyHandler secret cmd data = .ok ()

/-- C4: cliProcess first arms the 5-second read deadline; if the first packet
is not a Verify packet with the exact secret (wrong command, wrong secret, or
a read/codec/timeout error), the server writes the verification-failure packet
and closes the stream, returns an error, and the server state — in particular
the active-connection reference — is unchanged, so the stream never becomes
active; on handshake success the deadline is cleared and the
verification-success packet is written. -/
theorem cliProcess_handshake_gate (s : ServerState) (c : ConnId)
    (firstRead : Except String (Nat × Bytes)) (secret : Bytes) (okWrite : Bool) :
    (cliProcess s c firstRead secret okWrite).2.1.head? = some (.setDeadline c) ∧
    (¬ handshakeAccepts firstRead secret →
      (cliProcess s c firstRead secret okWrite).1 = s ∧
      (∃ e, (cliProcess s c firstRead secret okWrite).2.2 = .error e) ∧
      (∃ l, (cliProcess s c firstRead secret okWrite).2.1 =
        l ++ [.writeVerifyFailed c, .closeConn c])) ∧
    (handshakeAccepts firstRead secret →
      Action.clearDeadline c ∈ (cliProcess s c firstRead secret okWrite).2.1 ∧
      Action.writeVerifyOK c ∈ (cliProcess s c firstRead secret okWrite).2.1) := by
  cases firstRead with
  | error e =>
    refine ⟨rfl, fun _ => ⟨rfl, ⟨.ioError e, rfl⟩, ⟨[.setDeadline c], rfl⟩⟩, fun hacc => ?_⟩
    obtain ⟨cmd, data, heq, _⟩ := hacc
    cases heq
  | ok pkt =>
    obtain ⟨cmd, data⟩ := pkt
    cases hv : verifyHandler secret cmd data with
    | error e =>
      refine ⟨?_, fun _ => ⟨?_, ⟨e, ?_⟩, ⟨[.setDeadline c, .clearDeadline c], ?_⟩⟩, fun hacc => ?_⟩
      · simp [cliProcess, hv]
      · simp [cliProcess, hv]
      · simp [cliProcess, hv]
      · simp [cliProcess, hv]
      · obtain ⟨cmd', data', heq, hv'⟩ := hacc
        injection heq with heq
        obtain ⟨h1, h2⟩ : cmd = cmd' ∧ data = data' := by
          constructor
          · exact congrArg Prod.fst heq
          · exact congrArg Prod.snd heq
        rw [← h1, ← h2, hv] at hv'
        cases hv'
    | ok u =>
      refine ⟨?_, fun hnacc => absurd ⟨cmd, data, rfl, hv⟩ hnacc, fun _ => ⟨?_, ?_⟩⟩ <;>
        cases hconn : s.conn <;> cases okWrite <;>
          simp [cliProcess, hv, disconnectPrev, hconn]

/-- Witness for cliProcess_handshake_gate: a timed-out handshake on a fresh
server is refused with the failure packet, and a correct handshake emits
deadline-clear and verify-success. -/
theorem cliProcess_handshake_gate_witness :
    ((cliProcess ⟨none, true, true, true⟩ 4 (.error "timeout") [9] true).1 =
        ⟨none, true, true, true⟩ ∧
      (∃ e, (cliProcess ⟨none, true, true, true⟩ 4 (.error "timeout") [9] true).2.2 =
        .error e) ∧
      (∃ l, (cliProcess ⟨none, true, true, true⟩ 4 (.error "timeout") [9] true).2.1 =
        l ++ [.writeVerifyFailed 4, .closeConn 4])) ∧
    (Action.clearDeadline 5 ∈
        (cliProcess ⟨none, true, true, true⟩ 5 (.ok (PacketVerify, [9])) [9] true).2.1 ∧
      Action.writeVerifyOK 5 ∈
        (cliProcess ⟨none, true, true, true⟩ 5 (.ok (PacketVerify, [9])) [9] true).2.1) :=
  ⟨(cliProcess_handshake_gate ⟨none, true, true, true⟩ 4 (.error "timeout") [9] true).2.1
      (by rintro ⟨cmd, data, h, _⟩; cases h),
    (cliProcess_handshake_gate ⟨none, true, true, true⟩ 5 (.ok (PacketVerify, [9])) [9]
        true).2.2 ⟨PacketVerify, [9], rfl, rfl⟩⟩

/-- C5: when a stream passes the handshake while a previous connection is
active, the previous connection is closed and the reference cleared (the
intermediate state of disconnectPrev holds no connection — the hand-off window
with zero active agents) strictly before the verify-success write, the install
of the new connection, and the liveness watch; the final state holds exactly
the new connection (last-writer-wins; conn being an Option can hold at most
one active connection at any time). -/
theorem replacement_closes_old_first (s : ServerState) (old c : ConnId)
    (cmd : Nat) (data secret : Bytes)
    (hconn : s.conn = some old)
    (hv : verifyHandler secret cmd data = .ok ()) :
    (disconnectPrev s).1.conn = none ∧
    cliProcess s c (.ok (cmd, data)) secret true =
      ({ (disconnectPrev s).1 with conn := some c },
        [.setDeadline c, .clearDeadline c, .closeConn old, .writeVerifyOK c, .keepAlive c],
        .ok ()) := by
  constructor
  · simp [disconnectPrev, hconn]
  · simp [cliProcess, hv, disconnectPrev, hconn]

/-- Witness for replacement_closes_old_first: agent 3 is active, agent 8
completes the handshake and replaces it. -/
theorem replacement_closes_old_first_witness :
    (disconnectPrev ⟨some 3, true, true, true⟩).1.conn = none ∧
    cliProcess ⟨some 3, true, true, true⟩ 8 (.ok (PacketVerify, [9])) [9] true =
      ({ (disconnectPrev ⟨some 3, true, true, true⟩).1 with conn := some 8 },
        [.setDeadline 8, .clearDeadline 8, .closeConn 3, .writeVerifyOK 8, .keepAlive 8],
        .ok ()) :=
  replacement_closes_old_first ⟨some 3, true, true, true⟩ 3 8 PacketVerify [9] [9] rfl rfl

/-- C10: if the handshake succeeds but writing the verify-success packet
fails, the new stream is never installed (and not closed by the server on this
path), while the previously active connection was already closed and cleared:
the server ends with zero active agents. -/
theorem verifyOK_write_failure_zero_agents (s : ServerState) (old c : ConnId)
    (cmd : Nat) (data secret : Bytes)
    (hconn : s.conn = some old) (hv : verifyHandler secret cmd data = .ok ())
    (hne : old ≠ c) :
    (cliProcess s c (.ok (cmd, data)) secret false).1.conn = none ∧
    (cliProcess s c (.ok (cmd, data)) secret false).2.1 =
      [.setDeadline c, .clearDeadline c, .closeConn old, .writeVerifyOK c] ∧
    Action.closeConn c ∉ (cliProcess s c (.ok (cmd, data)) secret false).2.1 ∧
    (∃ e, (cliProcess s c (.ok (cmd, data)) secret false).2.2 = .error e) := by
  refine ⟨?_, ?_, ?_, ?_⟩
  · simp [cliProcess, hv, disconnectPrev, hconn]
  · simp [cliProcess, hv, disconnectPrev, hconn]
  · simp [cliProcess, hv, disconnectPrev, hconn, Ne.symm hne]
  · simp [cliProcess, hv, disconnectPrev, hconn]

/-- Witness for verifyOK_write_failure_zero_agents: agent 3 active, stream 8
passes the handshake but the success write fails. -/
theorem verifyOK_write_failure_zero_agents_witness :
    (cliProcess ⟨some 3, true, true, true⟩ 8 (.ok (PacketVerify, [9])) [9] false).1.conn =
      none ∧
    (cliProcess ⟨some 3, true, true, true⟩ 8 (.ok (PacketVerify, [9])) [9] false).2.1 =
      [.setDeadline 8, .clearDeadline 8, .closeConn 3, .writeVerifyOK 8] ∧
    Action.closeConn 8 ∉
      (cliProcess ⟨some 3, true, true, true⟩ 8 (.ok (PacketVerify, [9])) [9] false).2.1 ∧
    (∃ e, (cliProcess ⟨some 3, true, true, true⟩ 8 (.ok (PacketVerify, [9])) [9]
      false).2.2 = .error e) :=
  verifyOK_write_failure_zero_agents ⟨some 3, true, true, true⟩ 3 8 PacketVerify [9] [9]
    rfl rfl (by decide)

/-- An exchange environment whose stream write fails (dead tunnel stream). -/
def deadStreamEnv : BridgeEnv :=
  { encodeReq := .ok [0]
    wData := .error "broken pipe"
    readRes := .error "EOF"
    decodeResp := fun _ => .error "unused" }

/-- C7 counterexample: after a successful handshake the liveness watch
keepALive(conn) runs and returns (its action is in the completed trace), yet
the active-connection reference still holds the connection — cliProcess never
clears s.conn after keepALive ends, since keepALive only receives the conn
value — so a subsequent HTTP request whose write to the dead stream fails does
NOT observe the agent-not-connected error. -/
theorem liveness_end_not_cleared :
    (cliProcess ⟨none, true, true, true⟩ 5 (.ok (PacketVerify, [9])) [9] true).1.conn =
      some 5 ∧
    Action.keepAlive 5 ∈
      (cliProcess ⟨none, true, true, true⟩ 5 (.ok (PacketVerify, [9])) [9] true).2.1 ∧
    (TRPServer.write (cliProcess ⟨none, true, true, true⟩ 5 (.ok (PacketVerify, [9])) [9]
      true).1 deadStreamEnv).1 ≠ .error .agentNotConnected := by
  refine ⟨rfl, by decide, ?_⟩
  intro h
  simp [cliProcess, disconnectPrev, verifyHandler, PacketVerify, TRPServer.write,
    deadStreamEnv] at h

/-- C7 amended: when the liveness watch of an installed connection ends, the
active-connection reference is left unchanged, still holding the dead
connection; a subsequent HTTP request whose stream write fails still receives
the fixed 400 response, but through a write error on the dead stream rather
than by observing no active agent — until a later handshake replaces the
connection or shutdown clears it. -/
theorem liveness_end_amended (s : ServerState) (c : ConnId) (cmd : Nat)
    (data secret : Bytes) (env : BridgeEnv)
    (hv : verifyHandler secret cmd data = .ok ())
    (he : ∃ e, env.wData = .error e) :
    (cliProcess s c (.ok (cmd, data)) secret true).1.conn = some c ∧
    (ServeHTTP (cliProcess s c (.ok (cmd, data)) secret true).1 env emptyWriter).1 =
      fixedBadResponse ∧
    (TRPServer.write (cliProcess s c (.ok (cmd, data)) secret true).1 env).1 ≠
      .error .agentNotConnected := by
  obtain ⟨e, he⟩ := he
  have hconn : (cliProcess s c (.ok (cmd, data)) secret true).1.conn = some c := by
    cases hc : s.conn <;> simp [cliProcess, hv, disconnectPrev, hc]
  refine ⟨hconn, ?_, ?_⟩
  · apply failed_exchange_uniform_response
    left
    unfold TRPServer.write
    rw [hconn]
    cases henc : env.encodeReq with
    | error e2 => exact ⟨.encodeError e2, rfl⟩
    | ok b =>
      rw [he]
      exact ⟨.ioError e, rfl⟩
  · unfold TRPServer.write
    rw [hconn]
    cases henc : env.encodeReq with
    | error e2 => simp
    | ok b =>
      rw [he]
      simp

/-- Witness for liveness_end_amended: agent 5 installed on a fresh server, its
stream then dies. -/
theorem liveness_end_amended_witness :
    (cliProcess ⟨none, true, true, true⟩ 5 (.ok (PacketVerify, [9])) [9] true).1.conn =
      some 5 ∧
    (ServeHTTP (cliProcess ⟨none, true, true, true⟩ 5 (.ok (PacketVerify, [9])) [9]
      true).1 deadStreamEnv emptyWriter).1 = fixedBadResponse ∧
    (TRPServer.write (cliProcess ⟨none, true, true, true⟩ 5 (.ok (PacketVerify, [9])) [9]
      true).1 deadStreamEnv).1 ≠ .error .agentNotConnected :=
  liveness_end_amended ⟨none, true, true, true⟩ 5 PacketVerify [9] [9] deadStreamEnv rfl
    ⟨"broken pipe", rfl⟩

/-! ### The claims about shutdown -/

/-- C8 counterexample: Close called twice in a row on a started server fails
the second time — the first call cleared the listener reference, so the second
call returns the "TCP instance not created" configuration error instead of
succeeding. -/
theorem close_twice_second_fails :
    (TRPServer.Close (TRPServer.Close ⟨some 0, true, true, true⟩ none).1 none).2.2 =
      some .tcpNotCreated := by
  rfl

/-- C8 amended: the second consecutive Close does not hang and performs no
further shutdown action (empty action trace), but it returns the same
"TCP instance not created" configuration error that Close reports when no TCP
listener was ever created. -/
theorem close_twice_amended (s : ServerState) (e1 e2 e3 : Option String) :
    (TRPServer.Close (TRPServer.Close s e1).1 e2).2.1 = [] ∧
    (TRPServer.Close (TRPServer.Close s e1).1 e2).2.2 = some .tcpNotCreated ∧
    (TRPServer.Close ⟨none, false, false, false⟩ e3).2.2 = some .tcpNotCreated := by
  obtain ⟨c, l, h, r⟩ := s
  cases c <;> cases l <;> cases h <;> exact ⟨rfl, rfl, rfl⟩

/-! ### The claim about exchange serialization -/

/-- C1: in every reachable state of the system of concurrent ServeHTTP
invocations, at most one exchange is in flight on the tunnel stream (any two
threads between Lock() and Unlock() are the same thread, as both must hold
the single shared mutex), and the wire trace is serialized: every response
read immediately follows the request write of its own thread, so no two bridge
exchanges are ever interleaved on the wire. -/
theorem serveHTTP_exchanges_serialized (n : Nat) (s : MuxState n)
    (h : MuxReachable n s) :
    (∀ t t', inFlight s t → inFlight s t' → t = t') ∧ ∃ p, SerTrace s.trace p := by
  obtain ⟨hlock, p, hser, _⟩ := muxReachable_inv h
  refine ⟨?_, p, hser⟩
  intro t t' ht ht'
  have h1 := hlock t ht
  have h2 := hlock t' ht'
  rw [h1] at h2
  exact Option.some.inj h2

/-- A demonstration state of two concurrent handler threads in which thread 0
has completed one full exchange: reached by acquire, writeOk, readResp. -/
def muxDemoState : MuxState 2 :=
  ⟨none,
    Function.update
      (Function.update (Function.update (fun _ => Phase.idle) 0 Phase.writing) 0
        Phase.reading)
      0 Phase.done,
    [(0, false), (0, true)]⟩

theorem muxDemoState_reachable : MuxReachable 2 muxDemoState := by
  have h1 : MuxStep (MuxInit 2)
      ⟨some 0, Function.update (MuxInit 2).phase 0 Phase.writing, (MuxInit 2).trace⟩ :=
    MuxStep.acquire (MuxInit 2) 0 rfl rfl
  have h2 : MuxStep
      ⟨some 0, Function.update (MuxInit 2).phase 0 Phase.writing, (MuxInit 2).trace⟩
      ⟨some 0,
        Function.update (Function.update (MuxInit 2).phase 0 Phase.writing) 0 Phase.reading,
        (MuxInit 2).trace ++ [(0, false)]⟩ :=
    MuxStep.writeOk _ 0 rfl rfl
  have h3 : MuxStep
      ⟨some 0,
        Function.update (Function.update (MuxInit 2).phase 0 Phase.writing) 0 Phase.reading,
        (MuxInit 2).trace ++ [(0, false)]⟩
      ⟨none,
        Function.update
          (Function.update (Function.update (MuxInit 2).phase 0 Phase.writing) 0
            Phase.reading)
          0 Phase.done,
        ((MuxInit 2).trace ++ [(0, false)]) ++ [(0, true)]⟩ :=
    MuxStep.readResp _ 0 rfl rfl
  exact Relation.ReflTransGen.tail
    (Relation.ReflTransGen.tail (Relation.ReflTransGen.tail Relation.ReflTransGen.refl h1)
      h2)
    h3

/-- Witness for serveHTTP_exchanges_serialized, applied to the reachable
demonstration state with a completed exchange on the wire. -/
theorem serveHTTP_exchanges_serialized_witness :
    (∀ t t' : Fin 2, inFlight muxDemoState t → inFlight muxDemoState t' → t = t') ∧
    ∃ p, SerTrace muxDemoState.trace p :=
  serveHTTP_exchanges_serialized 2 muxDemoState muxDemoState_reachable

end RP
